import Mathlib

set_option maxHeartbeats 1000000

/-!
Shallow embedding of the student-grade-management repository
(`src/models/grade.py`, `src/models/course.py`, `src/models/student.py`).

Modelling conventions:
* a database table is a `List` of row structures; every repository operation
  returns its outcome together with the table it leaves behind — the table is
  returned unchanged on every failure path, mirroring the fact that the source
  issues no SQL statement once a validation fails;
* Python numeric scores (floats) are modelled as rationals, Python integers as
  `Int` (surrogate ids as `Nat`), Python `None` as `Option`;
* the truthiness tests of the source (`not student_id`, `not credits`,
  `not code`) become tests against `0` or the empty string, and `score is None`
  becomes `Option.isNone`;
* a failed operation carries the error message the source prints (without the
  interpolated id/year fragments), so distinct failure modes stay
  distinguishable;
* `round(x, 2)` is modelled by `round2`; the claims checked below do not
  depend on the tie-breaking convention of the rounding.
-/

/-- Row of the `grades` table. -/
structure GradeRow where
  id : Nat
  student_id : Nat
  course_id : Nat
  score : ℚ
  grade_letter : String
  semester : Int
  academic_year : String
  deriving DecidableEq

/-- Row of the `courses` table. -/
structure CourseRow where
  id : Nat
  code : String
  name : String
  credits : Int
  semester : Int
  description : Option String
  deriving DecidableEq

/-- Row of the `students` table. -/
structure StudentRow where
  id : Nat
  nim : String
  name : String
  major : String
  email : Option String
  phone : Option String
  deriving DecidableEq

/-- Converts a numeric score to a grade letter
(`Grade.calculate_grade_letter` in `src/models/grade.py`). -/
def Grade.calculate_grade_letter (score : ℚ) : String :=
  if score ≥ 85 then "A"
  else if score ≥ 70 then "B"
  else if score ≥ 60 then "C"
  else if score ≥ 50 then "D"
  else "E"

/-- Converts a grade letter to a GPA point (`Grade.grade_to_gpa`): a
dictionary lookup over the fixed scale with default `0.0`. -/
def Grade.grade_to_gpa (grade_letter : String) : ℚ :=
  if grade_letter = "A" then 4
  else if grade_letter = "B" then 3
  else if grade_letter = "C" then 2
  else if grade_letter = "D" then 1
  else if grade_letter = "E" then 0
  else 0

/-- Error message of the required-field check in `Grade.create`. -/
def Grade.requiredMsg : String := "Student ID, course ID, and score are required"

/-- Error message of the score-range check in `Grade.create` / `Grade.update`. -/
def Grade.scoreRangeMsg : String := "Score must be between 0 and 100"

/-- Error message of the semester-range check in `Grade.create`. -/
def Grade.semesterRangeMsg : String := "Semester must be between 1 and 8"

/-- Error message of the duplicate-quadruple check in `Grade.create`. -/
def Grade.duplicateMsg : String := "Grade already exists for this student-course"

/-- Error message of the existence check in `Grade.update` / `Grade.delete`. -/
def Grade.notFoundMsg : String := "Grade not found"

/-- Lookup of a grade by the exact (student, course, semester, academic year)
quadruple (`Grade.find_by_student_course`, a `fetch_one` returning the first
matching row). -/
def Grade.find_by_student_course (grades : List GradeRow)
    (student_id course_id : Nat) (semester : Int) (academic_year : String) :
    Option GradeRow :=
  grades.find? fun g =>
    g.student_id == student_id && g.course_id == course_id &&
      g.semester == semester && g.academic_year == academic_year

/-- Lookup of a grade row by surrogate id (`BaseModel.find_by_id` on the
`grades` table). -/
def Grade.find_by_id (grades : List GradeRow) (id : Nat) : Option GradeRow :=
  grades.find? fun g => g.id == id

/-- Creation of a grade entry (`Grade.create`): required-field truthiness
check, score-range check, semester-range check, duplicate-quadruple check,
then insertion of the row with the letter derived from the score. -/
def Grade.create (grades : List GradeRow) (freshId : Nat)
    (student_id course_id : Nat) (score : Option ℚ)
    (semester : Int) (academic_year : String) :
    Except String Nat × List GradeRow :=
  if student_id == 0 || course_id == 0 || score.isNone then
    (.error Grade.requiredMsg, grades)
  else
    match score with
    | none => (.error Grade.requiredMsg, grades)
    | some s =>
      if s < 0 ∨ s > 100 then (.error Grade.scoreRangeMsg, grades)
      else if semester < 1 ∨ semester > 8 then (.error Grade.semesterRangeMsg, grades)
      else if (Grade.find_by_student_course grades student_id course_id
          semester academic_year).isSome then
        (.error Grade.duplicateMsg, grades)
      else
        (.ok freshId,
          grades ++ [{ id := freshId, student_id := student_id,
                       course_id := course_id, score := s,
                       grade_letter := Grade.calculate_grade_letter s,
                       semester := semester, academic_year := academic_year }])

/-- Update of a grade score (`Grade.update`): existence check, score-range
check, then a single statement writing the score and the recomputed letter
together to every row with the given id. -/
def Grade.update (grades : List GradeRow) (id : Nat) (score : ℚ) :
    Except String Unit × List GradeRow :=
  match Grade.find_by_id grades id with
  | none => (.error Grade.notFoundMsg, grades)
  | some _ =>
    if score < 0 ∨ score > 100 then (.error Grade.scoreRangeMsg, grades)
    else
      (.ok (), grades.map fun g =>
        if g.id = id then
          { g with score := score,
                   grade_letter := Grade.calculate_grade_letter score }
        else g)

/-- Row shape returned by `Grade.get_student_grades`: a grade joined with the
identifying fields and credits of its course. -/
structure StudentGradeRow where
  id : Nat
  score : ℚ
  grade_letter : String
  semester : Int
  academic_year : String
  code : String
  course_name : String
  credits : Int
  deriving DecidableEq

/-- Lookup of a course row by surrogate id (`BaseModel.find_by_id` on the
`courses` table). -/
def Course.find_by_id (courses : List CourseRow) (id : Nat) : Option CourseRow :=
  courses.find? fun c => c.id == id

/-- All grades of one student joined with course data
(`Grade.get_student_grades`): inner join of `grades` with `courses` on the
course id, filtered to the student, ordered by (semester, course code). -/
def Grade.get_student_grades (grades : List GradeRow) (courses : List CourseRow)
    (student_id : Nat) : List StudentGradeRow :=
  (grades.filterMap fun g =>
    if g.student_id == student_id then
      (Course.find_by_id courses g.course_id).map fun c =>
        { id := g.id, score := g.score, grade_letter := g.grade_letter,
          semester := g.semester, academic_year := g.academic_year,
          code := c.code, course_name := c.name, credits := c.credits }
    else none).insertionSort fun a b =>
      a.semester < b.semester ∨ (a.semester = b.semester ∧ a.code ≤ b.code)

/-- Rounding to two decimal places, modelling Python `round(x, 2)`; the
claims below do not depend on the tie-breaking convention. -/
def round2 (q : ℚ) : ℚ := (round (q * 100) : ℚ) / 100

/-- Transcript value returned by `Grade.get_student_transcript`. -/
structure Transcript where
  student : StudentRow
  grades : List StudentGradeRow
  total_credits : Int
  gpa : ℚ
  deriving DecidableEq

/-- Lookup of a student row by surrogate id (`BaseModel.find_by_id` on the
`students` table). -/
def Student.find_by_id (students : List StudentRow) (id : Nat) : Option StudentRow :=
  students.find? fun s => s.id == id

/-- Transcript generation (`Grade.get_student_transcript`): absent when the
student id does not resolve; otherwise accumulates credit-weighted GPA points
and credits over the student's joined grades, guards the division by zero
credits, and rounds the GPA to two decimals. -/
def Grade.get_student_transcript (students : List StudentRow)
    (grades : List GradeRow) (courses : List CourseRow) (student_id : Nat) :
    Option Transcript :=
  match Student.find_by_id students student_id with
  | none => none
  | some student =>
    let rows := Grade.get_student_grades grades courses student_id
    let total_points : ℚ :=
      rows.foldl (fun acc g => acc + Grade.grade_to_gpa g.grade_letter * (g.credits : ℚ)) 0
    let total_credits : Int :=
      rows.foldl (fun acc g => acc + g.credits) 0
    let gpa : ℚ := if total_credits > 0 then total_points / (total_credits : ℚ) else 0
    some { student := student, grades := rows, total_credits := total_credits,
           gpa := round2 gpa }

/-- Error message of the required-field truthiness check in `Course.create`. -/
def Course.requiredMsg : String := "Code, name, credits, and semester are required"

/-- Error message of the credits-range check in `Course.create` / `Course.update`. -/
def Course.creditsRangeMsg : String := "Credits must be between 1 and 6"

/-- Error message of the semester-range check in `Course.create` / `Course.update`. -/
def Course.semesterRangeMsg : String := "Semester must be between 1 and 8"

/-- Error message of the duplicate-code check in `Course.create`. -/
def Course.duplicateMsg : String := "Course with code already exists"

/-- Error message of `Course.update` when no valid field is supplied. -/
def Course.noFieldsMsg : String := "No valid fields to update"

/-- Error message of the existence check in `Course.update` / `Course.delete`. -/
def Course.notFoundMsg : String := "Course not found"

/-- Lookup of a course by its natural key (`Course.find_by_code`). -/
def Course.find_by_code (courses : List CourseRow) (code : String) :
    Option CourseRow :=
  courses.find? fun c => c.code == code

/-- Creation of a course (`Course.create`): truthiness check on all four
required arguments (so a zero `credits` or `semester` trips this check, not
the range checks), credits-range check, semester-range check, duplicate-code
check, then insertion. -/
def Course.create (courses : List CourseRow) (freshId : Nat)
    (code name : String) (credits semester : Int) (description : Option String) :
    Except String Nat × List CourseRow :=
  if code == "" || name == "" || credits == 0 || semester == 0 then
    (.error Course.requiredMsg, courses)
  else if credits < 1 ∨ credits > 6 then (.error Course.creditsRangeMsg, courses)
  else if semester < 1 ∨ semester > 8 then (.error Course.semesterRangeMsg, courses)
  else if (Course.find_by_code courses code).isSome then
    (.error Course.duplicateMsg, courses)
  else
    (.ok freshId,
      courses ++ [{ id := freshId, code := code, name := name,
                    credits := credits, semester := semester,
                    description := description }])

/-- Value of a dynamic keyword argument of the Python `update` methods:
either a string or an integer. -/
inductive Val where
  | str (s : String)
  | int (n : Int)
  deriving DecidableEq

/-- Range test used by `Course.update` on a provided `credits` / `semester`
value. On an integer it is the source's `value < lo or value > hi`; a string
value makes the source raise a `TypeError` on that comparison — a failure
before any statement is issued — so it is modelled as out of range. -/
def Val.outOfRange (v : Val) (lo hi : Int) : Bool :=
  match v with
  | .int n => decide (n < lo ∨ n > hi)
  | .str _ => true

/-- Fields `Course.update` may touch (`allowed_fields` in the source). -/
def Course.allowed_fields : List String := ["name", "credits", "semester", "description"]

/-- The field-collection loop of `Course.update`: walks the keyword
arguments in order, skips unknown keys and `None` values, validates a
provided `credits` / `semester` against its range (short-circuiting into a
failure), and collects the remaining (field, value) pairs to apply. -/
def Course.buildUpdateFields :
    List (String × Option Val) → Except String (List (String × Val))
  | [] => .ok []
  | (_, none) :: rest => Course.buildUpdateFields rest
  | (field, some v) :: rest =>
    if field ∈ Course.allowed_fields then
      if field = "credits" ∧ Val.outOfRange v 1 6 then
        .error Course.creditsRangeMsg
      else if field = "semester" ∧ Val.outOfRange v 1 8 then
        .error Course.semesterRangeMsg
      else
        (Course.buildUpdateFields rest).map fun fs => (field, v) :: fs
    else Course.buildUpdateFields rest

/-- Application of one collected `SET field = value` pair to a course row;
a value of the wrong shape for the field leaves the row unchanged. -/
def CourseRow.applyField (r : CourseRow) : String × Val → CourseRow
  | ("name", .str s) => { r with name := s }
  | ("credits", .int n) => { r with credits := n }
  | ("semester", .int n) => { r with semester := n }
  | ("description", .str s) => { r with description := some s }
  | _ => r

/-- Update of a course (`Course.update`): existence check, field collection
with range validation (failing before any write), failure when no valid field
remains, then a single statement applying every collected field to the rows
with the given id. -/
def Course.update (courses : List CourseRow) (id : Nat)
    (kwargs : List (String × Option Val)) :
    Except String Unit × List CourseRow :=
  match Course.find_by_id courses id with
  | none => (.error Course.notFoundMsg, courses)
  | some _ =>
    match Course.buildUpdateFields kwargs with
    | .error msg => (.error msg, courses)
    | .ok fields =>
      if fields = [] then (.error Course.noFieldsMsg, courses)
      else
        (.ok (), courses.map fun c =>
          if c.id = id then fields.foldl CourseRow.applyField c else c)

/-- Error message of `Student.update` when no valid field is supplied. -/
def Student.noFieldsMsg : String := "No valid fields to update"

/-- Error message of the existence check in `Student.update` / `Student.delete`. -/
def Student.notFoundMsg : String := "Student not found"

/-- Fields `Student.update` may touch (`allowed_fields` in the source). -/
def Student.allowed_fields : List String := ["name", "major", "email", "phone"]

/-- The field-collection loop of `Student.update`: walks the keyword
arguments in order, skips unknown keys and `None` values, and collects the
remaining (field, value) pairs to apply. -/
def Student.buildUpdateFields :
    List (String × Option Val) → List (String × Val)
  | [] => []
  | (_, none) :: rest => Student.buildUpdateFields rest
  | (field, some v) :: rest =>
    if field ∈ Student.allowed_fields then
      (field, v) :: Student.buildUpdateFields rest
    else Student.buildUpdateFields rest

/-- Application of one collected `SET field = value` pair to a student row;
a value of the wrong shape for the field leaves the row unchanged. -/
def StudentRow.applyField (r : StudentRow) : String × Val → StudentRow
  | ("name", .str s) => { r with name := s }
  | ("major", .str s) => { r with major := s }
  | ("email", .str s) => { r with email := some s }
  | ("phone", .str s) => { r with phone := some s }
  | _ => r

/-- Update of a student (`Student.update`): existence check, field
collection, failure when no valid field remains, then a single statement
applying every collected field to the rows with the given id. -/
def Student.update (students : List StudentRow) (id : Nat)
    (kwargs : List (String × Option Val)) :
    Except String Unit × List StudentRow :=
  match Student.find_by_id students id with
  | none => (.error Student.notFoundMsg, students)
  | some _ =>
    match Student.buildUpdateFields kwargs with
    | [] => (.error Student.noFieldsMsg, students)
    | fields =>
      (.ok (), students.map fun s =>
        if s.id = id then fields.foldl StudentRow.applyField s else s)

theorem foldl_add_eq_sum {M α : Type} [AddCommMonoid M] (f : α → M)
    (l : List α) (init : M) :
    l.foldl (fun acc a => acc + f a) init = init + (l.map f).sum := by
  induction l generalizing init with
  | nil => simp
  | cons a t ih => simp [ih, add_assoc]

theorem Grade.create_success (grades : List GradeRow)
    (freshId student_id course_id : Nat) (s : ℚ) (semester : Int)
    (academic_year : String)
    (hsid : student_id ≠ 0) (hcid : course_id ≠ 0)
    (hr : ¬(s < 0 ∨ s > 100)) (hm : ¬(semester < 1 ∨ semester > 8))
    (hdup : Grade.find_by_student_course grades student_id course_id semester
      academic_year = none) :
    Grade.create grades freshId student_id course_id (some s) semester
        academic_year
      = (.ok freshId, grades ++ [{ id := freshId, student_id := student_id,
                                   course_id := course_id, score := s,
                                   grade_letter := Grade.calculate_grade_letter s,
                                   semester := semester,
                                   academic_year := academic_year }]) := by
  simp [Grade.create, hsid, hcid, hdup, hr, hm]

theorem Grade.update_success (grades : List GradeRow) (id : Nat) (s : ℚ)
    (hex : (Grade.find_by_id grades id).isSome)
    (hr : ¬(s < 0 ∨ s > 100)) :
    Grade.update grades id s
      = (.ok (), grades.map fun g =>
          if g.id = id then
            { g with score := s,
                     grade_letter := Grade.calculate_grade_letter s }
          else g) := by
  rcases hf : Grade.find_by_id grades id with _ | g0
  · rw [hf] at hex; simp at hex
  · simp [Grade.update, hf, hr]

/-- C3: `calculate_grade_letter` is the deterministic step function with
bands [85,∞)→A, [70,85)→B, [60,70)→C, [50,60)→D, below 50→E, inclusive on
the lower edge of each band; in particular the boundary scores 85, 70, 60,
50 and 0 map to A, B, C, D and E. -/
theorem C3_score_to_letter_step_function (score : ℚ) :
    (score ≥ 85 → Grade.calculate_grade_letter score = "A") ∧
    (70 ≤ score ∧ score < 85 → Grade.calculate_grade_letter score = "B") ∧
    (60 ≤ score ∧ score < 70 → Grade.calculate_grade_letter score = "C") ∧
    (50 ≤ score ∧ score < 60 → Grade.calculate_grade_letter score = "D") ∧
    (score < 50 → Grade.calculate_grade_letter score = "E") ∧
    Grade.calculate_grade_letter 85 = "A" ∧
    Grade.calculate_grade_letter 70 = "B" ∧
    Grade.calculate_grade_letter 60 = "C" ∧
    Grade.calculate_grade_letter 50 = "D" ∧
    Grade.calculate_grade_letter 0 = "E" := by
  refine ⟨?_, ?_, ?_, ?_, ?_, by decide, by decide, by decide, by decide,
    by decide⟩ <;> unfold Grade.calculate_grade_letter
  · intro h; rw [if_pos h]
  · rintro ⟨h1, h2⟩
    rw [if_neg (by linarith), if_pos (by linarith)]
  · rintro ⟨h1, h2⟩
    rw [if_neg (by linarith), if_neg (by linarith), if_pos (by linarith)]
  · rintro ⟨h1, h2⟩
    rw [if_neg (by linarith), if_neg (by linarith), if_neg (by linarith),
      if_pos (by linarith)]
  · intro h
    rw [if_neg (by linarith), if_neg (by linarith), if_neg (by linarith),
      if_neg (by linarith)]

/-- C3 witness: the band implications instantiated at the concrete boundary
score 85. -/
theorem C3_score_to_letter_step_function_witness :
    (85 : ℚ) ≥ 85 ∧ Grade.calculate_grade_letter 85 = "A" :=
  ⟨by norm_num, (C3_score_to_letter_step_function 85).1 (by norm_num)⟩

/-- C9: `grade_to_gpa` maps A, B, C, D, E to 4, 3, 2, 1, 0, defaults every
other string to 0, and composed with `calculate_grade_letter` always lands
in the five-point scale on scores in [0, 100]. -/
theorem C9_gpa_point_table :
    Grade.grade_to_gpa "A" = 4 ∧ Grade.grade_to_gpa "B" = 3 ∧
    Grade.grade_to_gpa "C" = 2 ∧ Grade.grade_to_gpa "D" = 1 ∧
    Grade.grade_to_gpa "E" = 0 ∧
    (∀ l : String, l ≠ "A" → l ≠ "B" → l ≠ "C" → l ≠ "D" → l ≠ "E" →
      Grade.grade_to_gpa l = 0) ∧
    (∀ s : ℚ, 0 ≤ s → s ≤ 100 →
      Grade.grade_to_gpa (Grade.calculate_grade_letter s)
        ∈ ([0, 1, 2, 3, 4] : List ℚ)) := by
  refine ⟨by decide, by decide, by decide, by decide, by decide, ?_, ?_⟩
  · intro l hA hB hC hD hE
    simp [Grade.grade_to_gpa, hA, hB, hC, hD, hE]
  · intro s h0 h100
    unfold Grade.calculate_grade_letter
    split
    · decide
    · split
      · decide
      · split
        · decide
        · split
          · decide
          · decide

/-- C9 witness: the defensive default and the composed range property
instantiated at the unrecognized letter "F" and the score 100. -/
theorem C9_gpa_point_table_witness :
    Grade.grade_to_gpa "F" = 0 ∧
    Grade.grade_to_gpa (Grade.calculate_grade_letter 100)
      ∈ ([0, 1, 2, 3, 4] : List ℚ) :=
  ⟨C9_gpa_point_table.2.2.2.2.2.1 "F" (by decide) (by decide) (by decide)
      (by decide) (by decide),
    C9_gpa_point_table.2.2.2.2.2.2 100 (by norm_num) (by norm_num)⟩

/-- C1: after a successful `Grade.create` the inserted row stores the
requested score together with `grade_letter = calculate_grade_letter` of that
stored score, and after a successful `Grade.update` every row carrying the
updated id stores the new score together with the letter recomputed from it —
the letter is only ever written as a function of the score being written. -/
theorem C1_grade_letter_pure_function_of_score
    (grades : List GradeRow) (freshId student_id course_id : Nat)
    (score : Option ℚ) (semester : Int) (academic_year : String)
    (id : Nat) (newScore : ℚ) :
    (∀ gid grades2,
        Grade.create grades freshId student_id course_id score semester
            academic_year = (.ok gid, grades2) →
        ∃ g ∈ grades2, g.id = gid ∧ g.score ∈ score ∧
          g.grade_letter = Grade.calculate_grade_letter g.score) ∧
    (∀ res grades2,
        Grade.update grades id newScore = (res, grades2) → res = .ok () →
        ∀ g ∈ grades2, g.id = id →
          g.score = newScore ∧
          g.grade_letter = Grade.calculate_grade_letter g.score) := by
  constructor
  · intro gid grades2 h
    unfold Grade.create at h
    split at h
    · simp at h
    · split at h
      · simp at h
      · split at h
        · simp at h
        · split at h
          · simp at h
          · split at h
            · simp at h
            · simp only [Prod.mk.injEq, Except.ok.injEq] at h
              obtain ⟨rfl, rfl⟩ := h
              exact ⟨_, List.mem_append_right _ (List.mem_singleton_self _),
                rfl, rfl, rfl⟩
  · intro res grades2 h hres
    subst hres
    unfold Grade.update at h
    split at h
    · simp at h
    · split at h
      · simp at h
      · simp only [Prod.mk.injEq] at h
        obtain ⟨-, rfl⟩ := h
        intro g hg hid
        simp only [List.mem_map] at hg
        obtain ⟨g0, hg0, rfl⟩ := hg
        by_cases h0 : g0.id = id
        · rw [if_pos h0]; exact ⟨rfl, rfl⟩
        · rw [if_neg h0] at hid; exact absurd hid h0

/-- C1 witness: the invariant instantiated on a concrete create of score 90
into an empty table and a concrete update of a stored grade to score 92. -/
theorem C1_grade_letter_pure_function_of_score_witness :
    (∃ g ∈ [({ id := 7, student_id := 1, course_id := 2, score := 90,
               grade_letter := "A", semester := 1,
               academic_year := "2024/2025" } : GradeRow)],
      g.id = 7 ∧ g.score ∈ some (90 : ℚ) ∧
        g.grade_letter = Grade.calculate_grade_letter g.score) ∧
    ((({ id := 5, student_id := 1, course_id := 2, score := 92,
         grade_letter := "A", semester := 1,
         academic_year := "2024/2025" } : GradeRow)).score = 92 ∧
      (({ id := 5, student_id := 1, course_id := 2, score := 92,
          grade_letter := "A", semester := 1,
          academic_year := "2024/2025" } : GradeRow)).grade_letter
        = Grade.calculate_grade_letter 92) :=
  ⟨(C1_grade_letter_pure_function_of_score [] 7 1 2 (some 90) 1 "2024/2025"
      5 92).1 7 _ (by rfl),
    (C1_grade_letter_pure_function_of_score
        [{ id := 5, student_id := 1, course_id := 2, score := 40,
           grade_letter := "E", semester := 1,
           academic_year := "2024/2025" }] 7 1 2 (some 90) 1 "2024/2025"
        5 92).2 (.ok ()) _ (by rfl) rfl _ (by decide) rfl⟩

/-- C4: once the required-field, score-range and semester-range validations
pass, `Grade.create` fails with the duplicate-conflict error exactly when
`find_by_student_course` finds a row for the quadruple, and a duplicate
leaves the table unchanged. -/
theorem C4_duplicate_guard_is_quadruple_lookup
    (grades : List GradeRow) (freshId student_id course_id : Nat) (s : ℚ)
    (semester : Int) (academic_year : String)
    (hsid : student_id ≠ 0) (hcid : course_id ≠ 0)
    (hr : ¬(s < 0 ∨ s > 100)) (hm : ¬(semester < 1 ∨ semester > 8)) :
    ((Grade.create grades freshId student_id course_id (some s) semester
        academic_year).1 = .error Grade.duplicateMsg
      ↔ (Grade.find_by_student_course grades student_id course_id semester
          academic_year).isSome) ∧
    ((Grade.find_by_student_course grades student_id course_id semester
        academic_year).isSome →
      Grade.create grades freshId student_id course_id (some s) semester
          academic_year = (.error Grade.duplicateMsg, grades)) := by
  by_cases hd : (Grade.find_by_student_course grades student_id course_id
      semester academic_year).isSome
  · have hcreate : Grade.create grades freshId student_id course_id (some s)
        semester academic_year = (.error Grade.duplicateMsg, grades) := by
      simp [Grade.create, hsid, hcid, hr, hm, hd]
    rw [hcreate]
    exact ⟨⟨fun _ => hd, fun _ => rfl⟩, fun _ => rfl⟩
  · have hnone := Option.not_isSome_iff_eq_none.mp hd
    rw [Grade.create_success grades freshId student_id course_id s semester
      academic_year hsid hcid hr hm hnone]
    refine ⟨⟨fun h => by simp at h, fun h => absurd h hd⟩,
      fun h => absurd h hd⟩

/-- C4 witness: a second create for the identical quadruple (student 1,
course 2, semester 1, year 2024/2025) fails with the duplicate error and
leaves the single-row table unchanged. -/
theorem C4_duplicate_guard_is_quadruple_lookup_witness :
    Grade.create [{ id := 1, student_id := 1, course_id := 2, score := 50,
                    grade_letter := "D", semester := 1,
                    academic_year := "2024/2025" }] 9 1 2 (some 60) 1
        "2024/2025"
      = (.error Grade.duplicateMsg,
          [{ id := 1, student_id := 1, course_id := 2, score := 50,
             grade_letter := "D", semester := 1,
             academic_year := "2024/2025" }]) :=
  (C4_duplicate_guard_is_quadruple_lookup
      [{ id := 1, student_id := 1, course_id := 2, score := 50,
         grade_letter := "D", semester := 1,
         academic_year := "2024/2025" }] 9 1 2 60 1 "2024/2025"
      (by decide) (by decide) (by norm_num) (by decide)).2 (by rfl)

/-- C10: `Grade.create` tests the score against absence rather than
falsiness, so a score of exactly 0 with valid ids passes validation and is
stored with letter E, while a zero student or course id trips the
required-field check — with that error regardless of the score, the semester
and any existing duplicate. -/
theorem C10_zero_score_accepted_zero_ids_rejected
    (grades : List GradeRow) (freshId student_id course_id : Nat)
    (semester : Int) (academic_year : String) (score : Option ℚ) :
    (student_id ≠ 0 → course_id ≠ 0 → ¬(semester < 1 ∨ semester > 8) →
      Grade.find_by_student_course grades student_id course_id semester
        academic_year = none →
      Grade.create grades freshId student_id course_id (some 0) semester
          academic_year
        = (.ok freshId,
            grades ++ [{ id := freshId, student_id := student_id,
                         course_id := course_id, score := 0,
                         grade_letter := "E", semester := semester,
                         academic_year := academic_year }])) ∧
    (Grade.create grades freshId 0 course_id score semester academic_year
      = (.error Grade.requiredMsg, grades)) ∧
    (Grade.create grades freshId student_id 0 score semester academic_year
      = (.error Grade.requiredMsg, grades)) := by
  refine ⟨?_, ?_, ?_⟩
  · intro h1 h2 h3 h4
    rw [Grade.create_success grades freshId student_id course_id 0 semester
      academic_year h1 h2 (by norm_num) h3 h4]
    norm_num [Grade.calculate_grade_letter]
  · simp [Grade.create]
  · simp [Grade.create]

/-- C10 witness: creating with score 0 and valid ids inserts a row with
letter E, instantiated on an empty table, an out-of-range score option and a
zero student id. -/
theorem C10_zero_score_accepted_zero_ids_rejected_witness :
    (Grade.create [] 3 1 2 (some 0) 1 "2024/2025"
      = (.ok 3, [{ id := 3, student_id := 1, course_id := 2, score := 0,
                   grade_letter := "E", semester := 1,
                   academic_year := "2024/2025" }])) ∧
    (Grade.create [] 3 0 2 (some 777) 99 "2024/2025"
      = (.error Grade.requiredMsg, [])) :=
  ⟨by
    have h := (C10_zero_score_accepted_zero_ids_rejected [] 3 1 2 1
      "2024/2025" (some 0)).1 (by decide) (by decide) (by decide) (by rfl)
    simpa using h,
   (C10_zero_score_accepted_zero_ids_rejected [] 3 1 2 99 "2024/2025"
      (some 777)).2.1⟩

theorem Grade.find_by_id_map_id_preserving (grades : List GradeRow) (id : Nat)
    (f : GradeRow → GradeRow) (hf : ∀ g, (f g).id = g.id) :
    Grade.find_by_id (grades.map f) id = (Grade.find_by_id grades id).map f := by
  unfold Grade.find_by_id
  rw [List.find?_map]
  have hp : ((fun g : GradeRow => g.id == id) ∘ f)
      = fun g : GradeRow => g.id == id := by
    funext g
    simp [Function.comp, hf]
  rw [hp]

/-- C8: with an existing grade id and a score in [0, 100], running
`Grade.update` twice with the same score leaves the same stored table —
hence the same stored (score, grade_letter) pair — as running it once. -/
theorem C8_grade_update_idempotent (grades : List GradeRow) (id : Nat) (s : ℚ)
    (hex : (Grade.find_by_id grades id).isSome)
    (h0 : 0 ≤ s) (h1 : s ≤ 100) :
    (Grade.update (Grade.update grades id s).2 id s).2
      = (Grade.update grades id s).2 := by
  have hr : ¬(s < 0 ∨ s > 100) := by push_neg; exact ⟨h0, h1⟩
  have hfid : ∀ g : GradeRow,
      ((if g.id = id then
          { g with score := s,
                   grade_letter := Grade.calculate_grade_letter s }
        else g) : GradeRow).id = g.id := by
    intro g
    by_cases hg : g.id = id <;> simp [hg]
  rw [Grade.update_success grades id s hex hr]
  have hex2 : (Grade.find_by_id ((grades.map fun g =>
      if g.id = id then
        { g with score := s,
                 grade_letter := Grade.calculate_grade_letter s }
      else g)) id).isSome := by
    rw [Grade.find_by_id_map_id_preserving grades id _ hfid]
    rcases hfind : Grade.find_by_id grades id with _ | g0
    · rw [hfind] at hex; simp at hex
    · simp
  rw [Grade.update_success _ id s hex2 hr, List.map_map]
  apply List.map_congr_left
  intro g _
  by_cases hg : g.id = id <;> simp [Function.comp, hg]

/-- C8 witness: two identical updates to score 75 of the only stored grade
leave the same table as one. -/
theorem C8_grade_update_idempotent_witness :
    (Grade.update
        (Grade.update [{ id := 4, student_id := 1, course_id := 2,
                         score := 40, grade_letter := "E", semester := 1,
                         academic_year := "2024/2025" }] 4 75).2 4 75).2
      = (Grade.update [{ id := 4, student_id := 1, course_id := 2,
                         score := 40, grade_letter := "E", semester := 1,
                         academic_year := "2024/2025" }] 4 75).2 :=
  C8_grade_update_idempotent _ 4 75 (by rfl) (by norm_num) (by norm_num)

/-- C5 counterexample: creating a course with credits = 0 and otherwise
valid inputs fails with the required-fields message — the source tests
`not credits`, which is true for 0 — and not with the credit-range message
the claim demands; no row is inserted either way. -/
theorem C5_counterexample_credits_zero :
    Course.create [] 1 "CS101" "Intro" 0 1 none
        = (.error Course.requiredMsg, []) ∧
    Course.requiredMsg ≠ Course.creditsRangeMsg :=
  ⟨by rfl, by decide⟩

/-- C5 (amended): every precondition violation of `Course.create` fails
before inserting a row with a message naming a constraint, and the four
messages are pairwise distinct; however the truthiness-based required-fields
check also captures a zero credits or semester value, so credits = 0 yields
the missing-fields failure while every other out-of-range credits value
yields the credit-range failure. -/
theorem C5_create_failure_identifies_constraint
    (courses : List CourseRow) (freshId : Nat) (code name : String)
    (credits semester : Int) (description : Option String) :
    (code = "" ∨ name = "" ∨ credits = 0 ∨ semester = 0 →
      Course.create courses freshId code name credits semester description
        = (.error Course.requiredMsg, courses)) ∧
    (code ≠ "" → name ≠ "" → credits ≠ 0 → semester ≠ 0 →
      credits < 1 ∨ credits > 6 →
      Course.create courses freshId code name credits semester description
        = (.error Course.creditsRangeMsg, courses)) ∧
    (code ≠ "" → name ≠ "" → credits ≠ 0 → semester ≠ 0 →
      ¬(credits < 1 ∨ credits > 6) → semester < 1 ∨ semester > 8 →
      Course.create courses freshId code name credits semester description
        = (.error Course.semesterRangeMsg, courses)) ∧
    (code ≠ "" → name ≠ "" → credits ≠ 0 → semester ≠ 0 →
      ¬(credits < 1 ∨ credits > 6) → ¬(semester < 1 ∨ semester > 8) →
      (Course.find_by_code courses code).isSome →
      Course.create courses freshId code name credits semester description
        = (.error Course.duplicateMsg, courses)) ∧
    List.Pairwise (fun a b => a ≠ b)
      [Course.requiredMsg, Course.creditsRangeMsg, Course.semesterRangeMsg,
       Course.duplicateMsg] := by
  refine ⟨?_, ?_, ?_, ?_, by decide⟩
  · intro h
    rcases h with h | h | h | h <;> simp [Course.create, h]
  · intro h1 h2 h3 h4 h5
    simp [Course.create, h1, h2, h3, h4, h5]
  · intro h1 h2 h3 h4 h5 h6
    simp [Course.create, h1, h2, h3, h4, h5, h6]
  · intro h1 h2 h3 h4 h5 h6 h7
    simp [Course.create, h1, h2, h3, h4, h5, h6, h7]

/-- C5 witness: credits = 7 with all other inputs valid yields precisely the
credit-range failure on an empty table. -/
theorem C5_create_failure_identifies_constraint_witness :
    Course.create [] 1 "CS101" "Intro" 7 1 none
      = (.error Course.creditsRangeMsg, []) :=
  (C5_create_failure_identifies_constraint [] 1 "CS101" "Intro" 7 1
      none).2.1 (by decide) (by decide) (by decide) (by decide)
    (by decide)

theorem Course.buildUpdateFields_cons_error (p : String × Option Val)
    (rest : List (String × Option Val)) (msg : String)
    (h : Course.buildUpdateFields rest = .error msg) :
    ∃ m, Course.buildUpdateFields (p :: rest) = .error m := by
  obtain ⟨field, value⟩ := p
  cases value with
  | none => exact ⟨msg, by simp only [Course.buildUpdateFields]; exact h⟩
  | some v =>
    simp only [Course.buildUpdateFields]
    by_cases ha : field ∈ Course.allowed_fields
    · rw [if_pos ha]
      by_cases hc : field = "credits" ∧ Val.outOfRange v 1 6
      · rw [if_pos hc]; exact ⟨_, rfl⟩
      · rw [if_neg hc]
        by_cases hsm : field = "semester" ∧ Val.outOfRange v 1 8
        · rw [if_pos hsm]; exact ⟨_, rfl⟩
        · rw [if_neg hsm, h]; exact ⟨msg, rfl⟩
    · rw [if_neg ha]; exact ⟨msg, h⟩

theorem Course.buildUpdateFields_error_of_bad
    (kwargs : List (String × Option Val))
    (hbad :
      (∃ n : Int, ("credits", some (Val.int n)) ∈ kwargs ∧ (n < 1 ∨ n > 6)) ∨
      (∃ n : Int, ("semester", some (Val.int n)) ∈ kwargs ∧ (n < 1 ∨ n > 8))) :
    ∃ msg, Course.buildUpdateFields kwargs = .error msg := by
  induction kwargs with
  | nil =>
    rcases hbad with ⟨n, hn, _⟩ | ⟨n, hn, _⟩ <;> simp at hn
  | cons p rest ih =>
    rcases hbad with ⟨n, hn, hrange⟩ | ⟨n, hn, hrange⟩
    · rcases List.mem_cons.mp hn with heq | hmem
      · rw [← heq]
        refine ⟨Course.creditsRangeMsg, ?_⟩
        have hoor : Val.outOfRange (Val.int n) 1 6 = true := by
          simp [Val.outOfRange, hrange]
        simp [Course.buildUpdateFields, Course.allowed_fields, hoor]
      · obtain ⟨msg, hmsg⟩ := ih (Or.inl ⟨n, hmem, hrange⟩)
        exact Course.buildUpdateFields_cons_error p rest msg hmsg
    · rcases List.mem_cons.mp hn with heq | hmem
      · rw [← heq]
        refine ⟨Course.semesterRangeMsg, ?_⟩
        have hoor : Val.outOfRange (Val.int n) 1 8 = true := by
          simp [Val.outOfRange, hrange]
        simp [Course.buildUpdateFields, Course.allowed_fields, hoor]
      · obtain ⟨msg, hmsg⟩ := ih (Or.inr ⟨n, hmem, hrange⟩)
        exact Course.buildUpdateFields_cons_error p rest msg hmsg

/-- C6: a `Course.update` whose keyword arguments provide an integer credits
value outside [1, 6] or an integer semester value outside [1, 8] fails and
applies no field at all: the stored table is returned unchanged. -/
theorem C6_course_update_atomic_on_range_violation
    (courses : List CourseRow) (id : Nat)
    (kwargs : List (String × Option Val))
    (hbad :
      (∃ n : Int, ("credits", some (Val.int n)) ∈ kwargs ∧ (n < 1 ∨ n > 6)) ∨
      (∃ n : Int, ("semester", some (Val.int n)) ∈ kwargs ∧ (n < 1 ∨ n > 8))) :
    ∃ msg, Course.update courses id kwargs = (.error msg, courses) := by
  obtain ⟨msg, hmsg⟩ := Course.buildUpdateFields_error_of_bad kwargs hbad
  unfold Course.update
  rcases hfind : Course.find_by_id courses id with _ | c
  · exact ⟨Course.notFoundMsg, rfl⟩
  · rw [hmsg]
    exact ⟨msg, rfl⟩

/-- C6 witness: updating a stored course with credits = 7 (after a name
field) fails and leaves the single-row table unchanged. -/
theorem C6_course_update_atomic_on_range_violation_witness :
    ∃ msg,
      Course.update [{ id := 1, code := "CS101", name := "Intro",
                       credits := 3, semester := 1, description := none }] 1
          [("name", some (Val.str "Calculus")),
           ("credits", some (Val.int 7))]
        = (.error msg,
            [{ id := 1, code := "CS101", name := "Intro", credits := 3,
               semester := 1, description := none }]) :=
  C6_course_update_atomic_on_range_violation _ 1 _
    (Or.inl ⟨7, by decide, by decide⟩)

theorem StudentRow.applyField_preserves_id_nim (r : StudentRow)
    (p : String × Val) :
    (StudentRow.applyField r p).id = r.id ∧
      (StudentRow.applyField r p).nim = r.nim := by
  obtain ⟨field, v⟩ := p
  unfold StudentRow.applyField
  split <;> exact ⟨rfl, rfl⟩

theorem StudentRow.foldl_applyField_preserves_id_nim
    (fields : List (String × Val)) (r : StudentRow) :
    ((fields.foldl StudentRow.applyField r).id = r.id ∧
      (fields.foldl StudentRow.applyField r).nim = r.nim) := by
  induction fields generalizing r with
  | nil => exact ⟨rfl, rfl⟩
  | cons p rest ih =>
    simp only [List.foldl_cons]
    obtain ⟨h1, h2⟩ := ih (StudentRow.applyField r p)
    obtain ⟨h3, h4⟩ := StudentRow.applyField_preserves_id_nim r p
    exact ⟨h1.trans h3, h2.trans h4⟩

theorem Student.buildUpdateFields_filter (kwargs : List (String × Option Val)) :
    Student.buildUpdateFields kwargs
      = Student.buildUpdateFields (kwargs.filter fun p =>
          decide (p.1 ∈ Student.allowed_fields) && p.2.isSome) := by
  induction kwargs with
  | nil => rfl
  | cons p rest ih =>
    obtain ⟨field, value⟩ := p
    cases value with
    | none =>
      by_cases ha : field ∈ Student.allowed_fields <;>
        simp [Student.buildUpdateFields, List.filter_cons, ha, ih]
    | some v =>
      by_cases ha : field ∈ Student.allowed_fields <;>
        simp [Student.buildUpdateFields, List.filter_cons, ha, ih]

theorem Student.buildUpdateFields_nil_of_unrecognized
    (kwargs : List (String × Option Val))
    (h : ∀ p ∈ kwargs, p.1 ∉ Student.allowed_fields ∨ p.2 = none) :
    Student.buildUpdateFields kwargs = [] := by
  induction kwargs with
  | nil => rfl
  | cons p rest ih =>
    obtain ⟨field, value⟩ := p
    cases value with
    | none =>
      simp only [Student.buildUpdateFields]
      exact ih fun q hq => h q (List.mem_cons_of_mem _ hq)
    | some v =>
      rcases h _ (List.mem_cons_self _ _) with ha | hv
      · simp only [Student.buildUpdateFields]
        rw [if_neg ha]
        exact ih fun q hq => h q (List.mem_cons_of_mem _ hq)
      · simp at hv

/-- C7: `Student.update` never changes the id or nim of any stored row,
treats unknown keys and `none` values as absent (the call equals the call on
the keyword list filtered to recognized non-none entries), fails with the
not-found error when the id does not resolve, and fails leaving the table
unchanged when no recognized non-none field is present. -/
theorem C7_student_update_frame (students : List StudentRow) (id : Nat)
    (kwargs : List (String × Option Val)) :
    ((Student.update students id kwargs).2.map (fun r => (r.id, r.nim))
      = students.map fun r => (r.id, r.nim)) ∧
    (Student.update students id kwargs
      = Student.update students id (kwargs.filter fun p =>
          decide (p.1 ∈ Student.allowed_fields) && p.2.isSome)) ∧
    (Student.find_by_id students id = none →
      Student.update students id kwargs
        = (.error Student.notFoundMsg, students)) ∧
    ((∀ p ∈ kwargs, p.1 ∉ Student.allowed_fields ∨ p.2 = none) →
      ∃ msg, Student.update students id kwargs
        = (.error msg, students)) := by
  refine ⟨?_, ?_, ?_, ?_⟩
  · unfold Student.update
    rcases hfind : Student.find_by_id students id with _ | s0
    · rfl
    · cases hb : Student.buildUpdateFields kwargs with
      | nil => rfl
      | cons f fs =>
        simp only
        rw [List.map_map]
        apply List.map_congr_left
        intro r _
        by_cases hr : r.id = id
        · obtain ⟨h1, h2⟩ :=
            StudentRow.foldl_applyField_preserves_id_nim (f :: fs) r
          simp only [List.foldl_cons] at h1 h2
          simp [Function.comp, hr, h1, h2]
        · simp [Function.comp, hr]
  · unfold Student.update
    rw [← Student.buildUpdateFields_filter]
  · intro hfind
    unfold Student.update
    rw [hfind]
  · intro h
    have hb := Student.buildUpdateFields_nil_of_unrecognized kwargs h
    unfold Student.update
    rcases hfind : Student.find_by_id students id with _ | s0
    · exact ⟨Student.notFoundMsg, rfl⟩
    · rw [hb]
      exact ⟨Student.noFieldsMsg, rfl⟩

/-- C7 witness: the stored (id, nim) pairs survive a successful update of
the name, an update on an unknown id fails with the not-found error, and an
update supplying only the unrecognized key nim fails leaving the table
unchanged. -/
theorem C7_student_update_frame_witness :
    ((Student.update [{ id := 1, nim := "2021001", name := "Ada",
                        major := "CS", email := none, phone := none }] 1
          [("name", some (Val.str "Beta"))]).2.map (fun r => (r.id, r.nim))
      = [(1, "2021001")]) ∧
    (Student.update [{ id := 1, nim := "2021001", name := "Ada",
                       major := "CS", email := none, phone := none }] 2
          [("name", some (Val.str "Beta"))]
        = (.error Student.notFoundMsg,
            [{ id := 1, nim := "2021001", name := "Ada", major := "CS",
               email := none, phone := none }])) ∧
    (∃ msg,
      Student.update [{ id := 1, nim := "2021001", name := "Ada",
                        major := "CS", email := none, phone := none }] 1
          [("nim", some (Val.str "9999999"))]
        = (.error msg,
            [{ id := 1, nim := "2021001", name := "Ada", major := "CS",
               email := none, phone := none }])) :=
  ⟨(C7_student_update_frame _ 1 [("name", some (Val.str "Beta"))]).1,
   (C7_student_update_frame _ 2 [("name", some (Val.str "Beta"))]).2.2.1
     (by rfl),
   (C7_student_update_frame _ 1 [("nim", some (Val.str "9999999"))]).2.2.2
     (by decide)⟩

theorem foldl_credits_eq_sum (l : List StudentGradeRow) (init : Int) :
    l.foldl (fun acc g => acc + g.credits) init
      = init + (l.map fun g => g.credits).sum :=
  foldl_add_eq_sum _ l init

theorem foldl_points_eq_sum (l : List StudentGradeRow) (init : ℚ) :
    l.foldl (fun acc g => acc + Grade.grade_to_gpa g.grade_letter
        * (g.credits : ℚ)) init
      = init + (l.map fun g =>
          Grade.grade_to_gpa g.grade_letter * (g.credits : ℚ)).sum :=
  foldl_add_eq_sum _ l init

/-- C2: for an existing student the transcript holds the student's joined
grade rows, reports total credits equal to the sum of the joined credits,
reports the gpa as the credit-weighted sum of GPA points divided by the
total credits and rounded to two decimals whenever the total is positive,
and reports total credits 0 with gpa 0.0 — no division fault — when the
student has no graded courses. -/
theorem C2_transcript_totals_and_gpa (students : List StudentRow)
    (grades : List GradeRow) (courses : List CourseRow) (student_id : Nat)
    (student : StudentRow)
    (hs : Student.find_by_id students student_id = some student) :
    ∃ t, Grade.get_student_transcript students grades courses student_id
        = some t ∧
      t.student = student ∧
      t.grades = Grade.get_student_grades grades courses student_id ∧
      t.total_credits = (t.grades.map fun g => g.credits).sum ∧
      (0 < t.total_credits →
        t.gpa = round2 ((t.grades.map fun g =>
            Grade.grade_to_gpa g.grade_letter * (g.credits : ℚ)).sum
          / (t.total_credits : ℚ))) ∧
      (t.grades = [] → t.total_credits = 0 ∧ t.gpa = 0) := by
  unfold Grade.get_student_transcript
  rw [hs]
  refine ⟨_, rfl, rfl, rfl, ?_, ?_, ?_⟩
  · simp only [foldl_credits_eq_sum, zero_add]
  · intro hpos
    simp only [foldl_credits_eq_sum, foldl_points_eq_sum, zero_add] at hpos ⊢
    rw [if_pos hpos]
  · intro hnil
    simp only at hnil
    rw [hnil]
    norm_num [round2]

/-- C2 witness: the transcript properties instantiated for a stored student
with no graded courses, empty grade and course tables. -/
theorem C2_transcript_totals_and_gpa_witness :
    ∃ t, Grade.get_student_transcript
        [{ id := 1, nim := "2021001", name := "Ada", major := "CS",
           email := none, phone := none }] [] [] 1 = some t ∧
      t.student = { id := 1, nim := "2021001", name := "Ada", major := "CS",
                    email := none, phone := none } ∧
      t.grades = Grade.get_student_grades [] [] 1 ∧
      t.total_credits = (t.grades.map fun g => g.credits).sum ∧
      (0 < t.total_credits →
        t.gpa = round2 ((t.grades.map fun g =>
            Grade.grade_to_gpa g.grade_letter * (g.credits : ℚ)).sum
          / (t.total_credits : ℚ))) ∧
      (t.grades = [] → t.total_credits = 0 ∧ t.gpa = 0) :=
  C2_transcript_totals_and_gpa
    [{ id := 1, nim := "2021001", name := "Ada", major := "CS",
       email := none, phone := none }] [] [] 1
    { id := 1, nim := "2021001", name := "Ada", major := "CS",
      email := none, phone := none } (by rfl)
